import Mathlib

/-!
Verification development for the Crowd Control game core
(a Fyrox-hosted 2D survival game plugin).

The development shallowly embeds the gameplay core:

* `game/src/lib.rs`            — tile-map builder (`Game::build_tilemap`)
* `game/src/scripts/player.rs` — player script (`Player::on_update`)
* `game/src/scripts/enemy.rs`  — enemy script (`Enemy::build`,
  `Enemy::move_towards_player`)
* `game/src/scripts/enemy_spawner.rs` — spawner script
  (`EnemySpawner::with_spawn_rate`, `on_update`, `spawn_enemy`)
* `game/src/types/enemy.rs`    — the plain enemy archetype record

Modelling conventions, used throughout:

* Machine floats (`f32`) are embedded as exact rationals.  Where a claim
  depends on IEEE-754 special values (division by zero, infinities, NaN)
  the dedicated carrier `FF` below is used; it carries exact rationals in
  its finite range, so rounding is not modelled, but the special-value
  propagation rules of IEEE 754 are.  The square-root routine of the
  float library is taken as a parameter, constrained only where IEEE 754
  pins its result exactly.
* Scene-graph handles are bare indices (`Nat`); a graph is a partial map
  from handles to nodes, and a dangling handle is one the map sends to
  `none`.  Fyrox's `Graph` indexing (`graph[handle]`) panics on a
  dangling handle, `Node::as_rectangle_mut` panics on a non-rectangle
  node, and `rand`'s `gen_range(lo..hi)` panics when `lo >= hi`; a
  function that can panic is embedded with an `Option` result where
  `none` is the panic and `some` the normal return.
* The thread-local random generator is skolemised: a sampling routine is
  passed in as a function, constrained by the documented contract of
  `gen_range` (a value in the given range) where a theorem needs it.
-/

/-- Carrier for `f32` values where IEEE-754 special values matter:
a finite value (an exact rational; rounding is not modelled), the two
infinities, or NaN.  Zero is unsigned and behaves as IEEE +0. -/
inductive FF where
  | fin (q : ℚ)
  | pinf
  | ninf
  | nan
deriving DecidableEq, Repr

/-- IEEE-754 negation on the embedded floats. -/
def FF.neg : FF → FF
  | .fin q => .fin (-q)
  | .pinf => .ninf
  | .ninf => .pinf
  | .nan => .nan

/-- IEEE-754 addition on the embedded floats (exact in the finite range). -/
def FF.add : FF → FF → FF
  | .fin a, .fin b => .fin (a + b)
  | .fin _, .pinf => .pinf
  | .fin _, .ninf => .ninf
  | .pinf, .fin _ => .pinf
  | .ninf, .fin _ => .ninf
  | .pinf, .pinf => .pinf
  | .ninf, .ninf => .ninf
  | _, _ => .nan

/-- IEEE-754 subtraction, as addition of the negation. -/
def FF.sub (a b : FF) : FF := a.add b.neg

/-- IEEE-754 multiplication on the embedded floats; in particular
zero times an infinity, and anything times NaN, is NaN. -/
def FF.mul : FF → FF → FF
  | .fin a, .fin b => .fin (a * b)
  | .fin a, .pinf => if 0 < a then .pinf else if a < 0 then .ninf else .nan
  | .fin a, .ninf => if 0 < a then .ninf else if a < 0 then .pinf else .nan
  | .pinf, .fin b => if 0 < b then .pinf else if b < 0 then .ninf else .nan
  | .ninf, .fin b => if 0 < b then .ninf else if b < 0 then .pinf else .nan
  | .pinf, .pinf => .pinf
  | .pinf, .ninf => .ninf
  | .ninf, .pinf => .ninf
  | .ninf, .ninf => .pinf
  | _, _ => .nan

/-- IEEE-754 division on the embedded floats; a nonzero finite value
divided by zero is a signed infinity, and zero divided by zero is NaN. -/
def FF.div : FF → FF → FF
  | .fin a, .fin b =>
      if b = 0 then (if 0 < a then .pinf else if a < 0 then .ninf else .nan)
      else .fin (a / b)
  | .fin _, .pinf => .fin 0
  | .fin _, .ninf => .fin 0
  | .pinf, .fin b => if 0 ≤ b then .pinf else .ninf
  | .ninf, .fin b => if 0 ≤ b then .ninf else .pinf
  | _, _ => .nan

/-- A finite-or-not view of the embedded floats; NaN and the infinities
are the non-finite values. -/
def FF.isFinite : FF → Bool
  | .fin _ => true
  | _ => false

/-- Kind-specific payload of a scene-graph node, following the node
variants the core touches: a 2D rigid body carries its linear velocity
(held in the `FF` float carrier so that special values can be written),
and rectangle / collider / other nodes carry nothing extra.
`Node::cast::<RigidBody>` succeeds exactly on `rigidBody`, and
`Node::as_rectangle_mut` exactly on `rectangle`. -/
inductive NodeKind where
  | rigidBody (velX velY : FF)
  | rectangle
  | collider
  | other
deriving DecidableEq, Repr

/-- A scene-graph node: the base local transform fields the core reads
and writes (position and scale), plus the kind payload. -/
structure Node where
  posX : ℚ
  posY : ℚ
  scaleX : ℚ
  scaleY : ℚ
  scaleZ : ℚ
  kind : NodeKind
deriving DecidableEq, Repr

/-- A scene graph: a partial map from handles (bare indices) to nodes.
A handle outside the domain is dangling. -/
def Graph : Type := Nat → Option Node

/-- Point update of a graph at a handle. -/
def Graph.update (g : Graph) (h : Nat) (n : Node) : Graph :=
  fun k => if k = h then some n else g k

/-- Embedding of `RigidBody::set_lin_vel`: overwrite the linear
velocity carried by a rigid-body node. -/
def Node.set_lin_vel (n : Node) (vx vy : FF) : Node :=
  { n with kind := NodeKind.rigidBody vx vy }

namespace types

/-- Embedding of `types::Enemy` (game/src/types/enemy.rs): the plain
enemy archetype record. -/
structure Enemy where
  name : String
  speed : ℚ
  scale : ℚ
  attack_damage : ℚ
  attack_speed : ℚ
deriving DecidableEq, Repr

/-- Embedding of `types::Enemy::new`. -/
def Enemy.new : Enemy :=
  { name := "", speed := 0, scale := 1, attack_damage := 0, attack_speed := 0 }

end types

/-- Embedding of the `Player` script state (game/src/scripts/player.rs):
four directional input booleans, health state, and the handles of the two
health-bar child quads. -/
structure Player where
  move_left : Bool
  move_right : Bool
  move_up : Bool
  move_down : Bool
  max_health : ℚ
  health : ℚ
  health_bar_background : Nat
  health_bar_progress : Nat
deriving DecidableEq, Repr

/-- Embedding of `Player::MAX_HEALTH_BAR_WIDTH`. -/
def Player.MAX_HEALTH_BAR_WIDTH : ℚ := 1

/-- Embedding of `Player::PLAYER_STARTING_HEALTH`. -/
def Player.PLAYER_STARTING_HEALTH : ℚ := 100

/-- The `x_speed` match of `Player::on_update`: `+3` when only the
left key is held, `-3` when only the right key is held, else `0`. -/
def Player.x_speed (p : Player) : ℚ :=
  match p.move_left, p.move_right with
  | true, false => 3
  | false, true => -3
  | _, _ => 0

/-- The `y_speed` match of `Player::on_update`: `+3` when only the
up key is held, `-3` when only the down key is held, else `0`. -/
def Player.y_speed (p : Player) : ℚ :=
  match p.move_up, p.move_down with
  | true, false => 3
  | false, true => -3
  | _, _ => 0

/-- Embedding of `Player::on_update`, acting on the scene graph.
`selfHandle` is `context.handle`.  The result is `none` when the source
panics: graph indexing on a dangling handle (both for `context.handle`
and for `self.health_bar_progress`), and `as_rectangle_mut` on a node
that is not a rectangle.  The velocity write is silently skipped when
the self node is not a rigid body (`cast_mut` returns `None`); the
health-bar scale write is skipped when the scale is unchanged. -/
def Player.on_update (p : Player) (selfHandle : Nat) (g : Graph) : Option Graph :=
  match g selfHandle with
  | none => none
  | some selfNode =>
    let g1 : Graph :=
      match selfNode.kind with
      | NodeKind.rigidBody _ _ =>
          Graph.update g selfHandle
            (selfNode.set_lin_vel (FF.fin p.x_speed) (FF.fin p.y_speed))
      | _ => g
    match g1 p.health_bar_progress with
    | none => none
    | some barNode =>
      match barNode.kind with
      | NodeKind.rectangle =>
          let new_health : ℚ :=
            max ((p.health / p.max_health) * Player.MAX_HEALTH_BAR_WIDTH) 0
          if barNode.scaleX ≠ new_health then
            some (Graph.update g1 p.health_bar_progress { barNode with scaleX := new_health })
          else
            some g1
      | _ => none

/-- Embedding of the `Enemy` script state (game/src/scripts/enemy.rs). -/
structure Enemy where
  handle : Nat
  sprite : Nat
  name : String
  speed : ℚ
  scale : ℚ
  attack_damage : ℚ
  attack_speed : ℚ
  starting_position_x : ℚ
  starting_position_y : ℚ
  attack_timer : ℚ
  player_handle : Nat
  player_collider : Nat
deriving DecidableEq, Repr

/-- Embedding of `Enemy::new`; `Handle::NONE` is modelled as index 0. -/
def Enemy.new : Enemy :=
  { handle := 0, sprite := 0, name := "", speed := 0, scale := 1,
    attack_damage := 0, attack_speed := 0,
    starting_position_x := 0, starting_position_y := 0,
    attack_timer := 0, player_handle := 0, player_collider := 0 }

/-- Embedding of `Enemy::with_name`. -/
def Enemy.with_name (e : Enemy) (name : String) : Enemy := { e with name := name }

/-- Embedding of `Enemy::with_speed`. -/
def Enemy.with_speed (e : Enemy) (speed : ℚ) : Enemy := { e with speed := speed }

/-- Embedding of `Enemy::with_starting_position`. -/
def Enemy.with_starting_position (e : Enemy) (x y : ℚ) : Enemy :=
  { e with starting_position_x := x, starting_position_y := y }

/-- Embedding of `Enemy::with_scale`. -/
def Enemy.with_scale (e : Enemy) (scale : ℚ) : Enemy := { e with scale := scale }

/-- Embedding of `Enemy::with_attack_damage`. -/
def Enemy.with_attack_damage (e : Enemy) (d : ℚ) : Enemy := { e with attack_damage := d }

/-- Embedding of `Enemy::with_attack_speed`. -/
def Enemy.with_attack_speed (e : Enemy) (s : ℚ) : Enemy := { e with attack_speed := s }

/-- Collision interaction groups of a collider, as 32-bit masks held in
`Nat` (the source writes them as `u32` binary literals). -/
structure InteractionGroups where
  memberships : Nat
  filter : Nat
deriving DecidableEq, Repr

/-- Cuboid collider shape: the two half-extents. -/
structure CuboidShape where
  half_extents_x : ℚ
  half_extents_y : ℚ
deriving DecidableEq, Repr

/-- The collider child built by `Enemy::build`. -/
structure BuiltCollider where
  shape : CuboidShape
  collision_groups : InteractionGroups
deriving DecidableEq, Repr

/-- The observable result of `Enemy::build`: the rigid body's transform,
its collider child, and the body flags the builder sets. -/
structure BuiltEnemy where
  posX : ℚ
  posY : ℚ
  scaleX : ℚ
  scaleY : ℚ
  collider : BuiltCollider
  gravity_scale : ℚ
  rotation_locked : Bool
deriving DecidableEq, Repr

/-- Embedding of `Enemy::build` (game/src/scripts/enemy.rs): places the
rigid body at the starting position with uniform scale, attaches a
cuboid collider of half-extents `scale/2` on each axis with memberships
`0b0100_0000_0000_0000_0000_0000_0000_0000` (bit 30, written here as
`2 ^ 30`) and filter `0b0011_1111_1111_1111_1111_1111_1111_1111`
(bits 0 through 29, written here as `2 ^ 30 - 1`), and disables gravity
and locks rotation. -/
def Enemy.build (e : Enemy) : BuiltEnemy :=
  { posX := e.starting_position_x
    posY := e.starting_position_y
    scaleX := e.scale
    scaleY := e.scale
    collider :=
      { shape := { half_extents_x := e.scale / 2, half_extents_y := e.scale / 2 }
        collision_groups := { memberships := 2 ^ 30, filter := 2 ^ 30 - 1 } }
    gravity_scale := 0
    rotation_locked := true }

/-- Embedding of `Enemy::move_towards_player` (game/src/scripts/enemy.rs).
The multi-borrow context grants at most one outstanding borrow per
distinct handle, so the second `try_get` fails both when the player
handle is dangling and when it aliases the already borrowed self handle
(borrow contention).  Every failure path returns the graph unchanged.
`sqrtF` is the float square-root routine, and the direction and factor
arithmetic is carried out in the IEEE float carrier `FF`. -/
def Enemy.move_towards_player (e : Enemy) (sqrtF : FF → FF) (g : Graph) : Graph :=
  match g e.handle with
  | none => g
  | some selfNode =>
    if e.player_handle = e.handle then g
    else
      match g e.player_handle with
      | none => g
      | some playerNode =>
        match selfNode.kind with
        | NodeKind.rigidBody _ _ =>
          match playerNode.kind with
          | NodeKind.rigidBody _ _ =>
            let dir_x := (FF.fin playerNode.posX).sub (FF.fin selfNode.posX)
            let dir_y := (FF.fin playerNode.posY).sub (FF.fin selfNode.posY)
            let factor :=
              (FF.fin e.speed).div (sqrtF ((dir_x.mul dir_x).add (dir_y.mul dir_y)))
            Graph.update g e.handle
              (selfNode.set_lin_vel (dir_x.mul factor) (dir_y.mul factor))
          | _ => g
        | _ => g

/-- Embedding of the `EnemySpawner` script state
(game/src/scripts/enemy_spawner.rs). -/
structure EnemySpawner where
  spawn_rate : ℚ
  spawn_timer : ℚ
  spawn_radius : ℚ
  enemy : types.Enemy
  player_handle : Nat
deriving DecidableEq, Repr

/-- Embedding of `EnemySpawner::new`; `Handle::NONE` is modelled as 0. -/
def EnemySpawner.new : EnemySpawner :=
  { spawn_rate := 0, spawn_timer := 0, spawn_radius := 0,
    enemy := types.Enemy.new, player_handle := 0 }

/-- Embedding of `EnemySpawner::with_spawn_rate`: stores the configured
rate plus `0.05` into the `spawn_rate` field. -/
def EnemySpawner.with_spawn_rate (s : EnemySpawner) (r : ℚ) : EnemySpawner :=
  { s with spawn_rate := r + 0.05 }

/-- Embedding of `EnemySpawner::with_spawn_radius`. -/
def EnemySpawner.with_spawn_radius (s : EnemySpawner) (r : ℚ) : EnemySpawner :=
  { s with spawn_radius := r }

/-- Embedding of `EnemySpawner::with_enemy`. -/
def EnemySpawner.with_enemy (s : EnemySpawner) (e : types.Enemy) : EnemySpawner :=
  { s with enemy := e }

/-- Embedding of `EnemySpawner::on_update`: adds `dt` to the timer and,
when the timer has reached the `spawn_rate` field, invokes `spawn_enemy`
once and resets the timer to zero.  The second component counts the
`spawn_enemy` invocations this tick (the source has an `if`, not a
`while`, so the count is 0 or 1); the spawn's own graph effect is
embedded separately in `EnemySpawner.spawn_enemy`. -/
def EnemySpawner.on_update (s : EnemySpawner) (dt : ℚ) : EnemySpawner × Nat :=
  let t := s.spawn_timer + dt
  if s.spawn_rate ≤ t then ({ s with spawn_timer := 0 }, 1)
  else ({ s with spawn_timer := t }, 0)

/-- Embedding of `EnemySpawner::spawn_enemy`
(game/src/scripts/enemy_spawner.rs).

Modelled from the spec: the bounds `MIN_MAP_XY_WITH_OFFSET` and
`MAX_MAP_XY_WITH_OFFSET` come from the crate's constants module, which
is not among the sources; the spec describes them only as the
offset-adjusted arena bounds and fixes no numeric value, so they enter
here as the parameters `minB` and `maxB`.

`sample lo hi` is `rng.gen_range(lo..hi)`; the source panics (`none`)
when the player handle is dangling (graph indexing) and when either
sampling range is empty (`gen_range` on `lo..hi` with `lo >= hi`).  On
the normal path the freshly configured enemy script value is returned. -/
def EnemySpawner.spawn_enemy (s : EnemySpawner) (minB maxB : ℚ)
    (sample : ℚ → ℚ → ℚ) (g : Graph) : Option Enemy :=
  match g s.player_handle with
  | none => none
  | some playerNode =>
    let min_x := max (playerNode.posX - s.spawn_radius) minB
    let max_x := min (playerNode.posX + s.spawn_radius) maxB
    let min_y := max (playerNode.posY - s.spawn_radius) minB
    let max_y := min (playerNode.posY + s.spawn_radius) maxB
    if min_x < max_x ∧ min_y < max_y then
      some ((((((Enemy.new.with_name s.enemy.name).with_speed
        s.enemy.speed).with_starting_position (sample min_x max_x)
        (sample min_y max_y)).with_scale s.enemy.scale).with_attack_damage
        s.enemy.attack_damage).with_attack_speed s.enemy.attack_speed)
    else none

/-- Modelled from the spec: `MIN_MAP_XY` from the crate's constants
module, which is not among the sources; scenario S1 of the spec fixes it
to `-10`. -/
def MIN_MAP_XY : Int := -10

/-- Modelled from the spec: `MAX_MAP_XY` from the crate's constants
module, which is not among the sources; scenario S1 of the spec fixes it
to `10`. -/
def MAX_MAP_XY : Int := 10

/-- One tile produced by `Game::build_tilemap` (game/src/lib.rs): the
loop cell `(x, y)`, the world position (the cell translated by
`MAP_OFFSET`), whether the tile was built as a static rigid body
(`RigidBodyType::Static`), whether it carries a collider child, and its
texture UV rectangle. -/
structure Tile where
  x : Int
  y : Int
  pos_x : Int
  pos_y : Int
  is_rigid_body_static : Bool
  has_collider_child : Bool
  uv_x : ℚ
  uv_y : ℚ
  uv_w : ℚ
  uv_h : ℚ
deriving DecidableEq, Repr

/-- The loop cell of a tile. -/
def Tile.cell (t : Tile) : Int × Int := (t.x, t.y)

/-- The body of the double loop in `Game::build_tilemap`, for the cell
`(x, y)`: a boundary cell (`x.abs() == MAX_MAP_XY + 1 ||
y.abs() == MAX_MAP_XY + 1`) becomes a static rigid body with a collider
child and the fixed stone UV rect `(0, 0, 0.375, 0.375)`; any other cell
becomes a plain quad whose UV origin is `(tx * 10000) / 80000.` and
`(ty * 10000) / 80000.` for the two thread-local draws
`tx = gen_range(0..=8)` and `ty = gen_range(0..=4)`.  The generator is
skolemised as `rng`, giving the pair of draws spent at each grass cell. -/
def tileAt (rng : Int → Int → Nat × Nat) (offset maxXY : Int) (x y : Int) : Tile :=
  if |x| = maxXY + 1 ∨ |y| = maxXY + 1 then
    { x := x, y := y, pos_x := x + offset, pos_y := y + offset,
      is_rigid_body_static := true, has_collider_child := true,
      uv_x := 0, uv_y := 0, uv_w := 0.375, uv_h := 0.375 }
  else
    { x := x, y := y, pos_x := x + offset, pos_y := y + offset,
      is_rigid_body_static := false, has_collider_child := false,
      uv_x := (((rng x y).1 * 10000 : Nat) : ℚ) / 80000,
      uv_y := (((rng x y).2 * 10000 : Nat) : ℚ) / 80000,
      uv_w := 0.125, uv_h := 0.125 }

/-- The index list of each of the two loops in `Game::build_tilemap`:
the integers from `minXY - 1` through `maxXY + 1`. -/
def tileCoords (minXY maxXY : Int) : List Int :=
  (List.range (maxXY - minXY + 3).toNat).map (fun (i : Nat) => minXY - 1 + (i : Int))

/-- Embedding of `Game::build_tilemap` (game/src/lib.rs): the list of
tiles inserted into the scene graph by the double loop over
`MIN_MAP_XY - 1 ..= MAX_MAP_XY + 1` in both axes.  `offset` is
`MAP_OFFSET` from the constants module (not among the sources), left as
a parameter; no claim depends on its value. -/
def build_tilemap (rng : Int → Int → Nat × Nat) (offset minXY maxXY : Int) : List Tile :=
  (tileCoords minXY maxXY).flatMap fun x =>
    (tileCoords minXY maxXY).map fun y => tileAt rng offset maxXY x y

theorem Graph.update_self (g : Graph) (h : Nat) (n : Node) : (g.update h n) h = some n := by
  simp [Graph.update]

theorem Graph.update_other (g : Graph) (h k : Nat) (n : Node) (hk : k ≠ h) :
    (g.update h n) k = g k := by
  simp [Graph.update, hk]

/-- C1: for every spawner whose rate field was configured through
`with_spawn_rate r` and every `dt ≥ 0`, one `on_update` call fires
`spawn_enemy` exactly once iff the timer plus `dt` has reached the
effective period `r + 0.05`; at most one spawn happens per tick, the
timer is `0` right after a firing tick and `spawn_timer + dt` after a
non-firing one, and the rate field is unchanged. -/
theorem spawner_fires_iff_period (s : EnemySpawner) (r dt : ℚ)
    (hrate : s.spawn_rate = (EnemySpawner.new.with_spawn_rate r).spawn_rate)
    (hdt : 0 ≤ dt) :
    (0 ≤ r → 0 < s.spawn_rate) ∧
    ((s.on_update dt).2 = 1 ↔ r + 0.05 ≤ s.spawn_timer + dt) ∧
    (s.on_update dt).2 ≤ 1 ∧
    ((s.on_update dt).2 = 1 → (s.on_update dt).1.spawn_timer = 0) ∧
    ((s.on_update dt).2 = 0 → (s.on_update dt).1.spawn_timer = s.spawn_timer + dt) ∧
    (s.on_update dt).1.spawn_rate = s.spawn_rate := by
  have hr : s.spawn_rate = r + 0.05 := by
    simpa [EnemySpawner.with_spawn_rate, EnemySpawner.new] using hrate
  refine ⟨fun hr0 => by rw [hr]; norm_num; linarith, ?_⟩
  rcases le_or_lt s.spawn_rate (s.spawn_timer + dt) with h | h
  · simp [EnemySpawner.on_update, if_pos h, ← hr, h]
  · simp [EnemySpawner.on_update, if_neg (not_le.mpr h), ← hr, not_le.mpr h]

/-- Concrete spawner for the witness below: configured through
`with_spawn_rate` with rate `9/20`. -/
def spawnerW : EnemySpawner := EnemySpawner.new.with_spawn_rate (9/20)

/-- Witness for `spawner_fires_iff_period`: spawner configured with rate
`9/20`, timer `0`, tick `dt = 1/2`; the effective period `1/2` is
reached, the tick fires, and the timer resets. -/
theorem spawner_fires_iff_period_witness :
    ((0:ℚ) ≤ 9/20 → 0 < spawnerW.spawn_rate) ∧
    ((spawnerW.on_update (1/2)).2 = 1 ↔ (9:ℚ)/20 + 0.05 ≤ spawnerW.spawn_timer + 1/2) ∧
    (spawnerW.on_update (1/2)).2 ≤ 1 ∧
    ((spawnerW.on_update (1/2)).2 = 1 → (spawnerW.on_update (1/2)).1.spawn_timer = 0) ∧
    ((spawnerW.on_update (1/2)).2 = 0 →
      (spawnerW.on_update (1/2)).1.spawn_timer = spawnerW.spawn_timer + 1/2) ∧
    (spawnerW.on_update (1/2)).1.spawn_rate = spawnerW.spawn_rate :=
  spawner_fires_iff_period spawnerW (9/20) (1/2) rfl (by norm_num)

/-- C3 counterexample: the claim asserts that the collision filter of
every built enemy has bits 0 and 1 clear and bits 2 through 31 set; on
the code the filter is `0b0011_1111_1111_1111_1111_1111_1111_1111`, so
already for `Enemy::new().build` bit 1 is set and bit 31 is clear. -/
theorem enemy_collider_filter_counterexample :
    Nat.testBit (Enemy.build Enemy.new).collider.collision_groups.filter 1 = true ∧
    Nat.testBit (Enemy.build Enemy.new).collider.collision_groups.filter 31 = false := by
  constructor <;> decide

/-- C3 as amended: every enemy built by `Enemy::build` gets a cuboid
collider of half-extents `(scale/2, scale/2)`, a collision membership
mask with bit 30 set and no other bit, and a collision filter mask with
bits 0 through 29 set and every other bit (in particular bits 30 and 31)
clear. -/
theorem enemy_collider_groups (e : Enemy) :
    (e.build).collider.shape.half_extents_x = e.scale / 2 ∧
    (e.build).collider.shape.half_extents_y = e.scale / 2 ∧
    (∀ i : Nat, Nat.testBit (e.build).collider.collision_groups.memberships i =
      decide (i = 30)) ∧
    (∀ i : Nat, Nat.testBit (e.build).collider.collision_groups.filter i =
      decide (i < 30)) := by
  refine ⟨rfl, rfl, ?_, ?_⟩
  · intro i
    show Nat.testBit (2 ^ 30) i = decide (i = 30)
    rw [Nat.testBit_two_pow]
    simp [eq_comm]
  · intro i
    show Nat.testBit (2 ^ 30 - 1) i = decide (i < 30)
    rw [Nat.testBit_two_pow_sub_one]

/-- C6: whenever `Player::on_update` runs with the player node a rigid
body and the health-bar progress node a rectangle, the linear velocity
written to the player body is `(x_speed, y_speed)` where each axis is in
`{0, 3, -3}`; an axis with both opposing keys held or neither held gets
`0`, holding only A gives `x = +3`, only D gives `x = -3`, only W gives
`y = +3`, and only S gives `y = -3`. -/
theorem player_velocity_cases (p : Player) (selfHandle : Nat) (g : Graph)
    (sn bn : Node) (vx vy : FF)
    (hne : selfHandle ≠ p.health_bar_progress)
    (hs : g selfHandle = some sn)
    (hsk : sn.kind = NodeKind.rigidBody vx vy)
    (hb : g p.health_bar_progress = some bn)
    (hbk : bn.kind = NodeKind.rectangle) :
    (∃ g' n', Player.on_update p selfHandle g = some g' ∧ g' selfHandle = some n' ∧
      n'.kind = NodeKind.rigidBody (FF.fin p.x_speed) (FF.fin p.y_speed)) ∧
    (p.x_speed = 0 ∨ p.x_speed = 3 ∨ p.x_speed = -3) ∧
    (p.y_speed = 0 ∨ p.y_speed = 3 ∨ p.y_speed = -3) ∧
    (p.move_left = p.move_right → p.x_speed = 0) ∧
    (p.move_left = true ∧ p.move_right = false → p.x_speed = 3) ∧
    (p.move_left = false ∧ p.move_right = true → p.x_speed = -3) ∧
    (p.move_up = p.move_down → p.y_speed = 0) ∧
    (p.move_up = true ∧ p.move_down = false → p.y_speed = 3) ∧
    (p.move_up = false ∧ p.move_down = true → p.y_speed = -3) := by
  refine ⟨?_, ?_, ?_, ?_, ?_, ?_, ?_, ?_, ?_⟩
  · unfold Player.on_update
    rw [hs]
    simp only [hsk]
    rw [Graph.update_other _ _ _ _ (Ne.symm hne), hb]
    simp only [hbk]
    split
    · exact ⟨_, _, rfl, by
        rw [Graph.update_other _ _ _ _ hne, Graph.update_self], rfl⟩
    · exact ⟨_, _, rfl, by rw [Graph.update_self], rfl⟩
  · unfold Player.x_speed
    cases p.move_left <;> cases p.move_right <;> simp
  · unfold Player.y_speed
    cases p.move_up <;> cases p.move_down <;> simp
  · intro h
    unfold Player.x_speed
    rw [h]
    cases p.move_right <;> simp
  · intro h
    unfold Player.x_speed
    rw [h.1, h.2]
  · intro h
    unfold Player.x_speed
    rw [h.1, h.2]
  · intro h
    unfold Player.y_speed
    rw [h]
    cases p.move_down <;> simp
  · intro h
    unfold Player.y_speed
    rw [h.1, h.2]
  · intro h
    unfold Player.y_speed
    rw [h.1, h.2]

/-- C7: whenever `Player::on_update` runs with the player node a rigid
body, a positive configured maximum health, and the health-bar progress
node a rectangle, the progress node's x-scale afterwards equals
`max(health / max_health, 0) * MAX_HEALTH_BAR_WIDTH` (for any health
value, negative ones included), and its y- and z-scales are exactly the
ones it had before the update. -/
theorem health_bar_scale (p : Player) (selfHandle : Nat) (g : Graph)
    (sn bn : Node) (vx vy : FF)
    (hne : selfHandle ≠ p.health_bar_progress)
    (hm : 0 < p.max_health)
    (hs : g selfHandle = some sn)
    (hsk : sn.kind = NodeKind.rigidBody vx vy)
    (hb : g p.health_bar_progress = some bn)
    (hbk : bn.kind = NodeKind.rectangle) :
    ∃ g' n', Player.on_update p selfHandle g = some g' ∧
      g' p.health_bar_progress = some n' ∧
      n'.scaleX = max (p.health / p.max_health) 0 * Player.MAX_HEALTH_BAR_WIDTH ∧
      n'.scaleY = bn.scaleY ∧ n'.scaleZ = bn.scaleZ := by
  unfold Player.on_update
  rw [hs]
  simp only [hsk]
  rw [Graph.update_other _ _ _ _ (Ne.symm hne), hb]
  simp only [hbk]
  split
  · refine ⟨_, _, rfl, Graph.update_self _ _ _, ?_, rfl, rfl⟩
    show max ((p.health / p.max_health) * Player.MAX_HEALTH_BAR_WIDTH) 0 =
      max (p.health / p.max_health) 0 * Player.MAX_HEALTH_BAR_WIDTH
    simp [Player.MAX_HEALTH_BAR_WIDTH]
  · rename_i hxeq
    refine ⟨_, _, rfl,
      (Graph.update_other _ _ _ _ (Ne.symm hne)).trans hb, ?_, rfl, rfl⟩
    rw [not_ne_iff] at hxeq
    rw [hxeq]
    show max ((p.health / p.max_health) * Player.MAX_HEALTH_BAR_WIDTH) 0 =
      max (p.health / p.max_health) 0 * Player.MAX_HEALTH_BAR_WIDTH
    simp [Player.MAX_HEALTH_BAR_WIDTH]

/-- Concrete player rigid-body node for witnesses: at the origin with
zero velocity. -/
def playerNodeW : Node :=
  { posX := 0, posY := 0, scaleX := 1, scaleY := 1, scaleZ := 1,
    kind := NodeKind.rigidBody (FF.fin 0) (FF.fin 0) }

/-- Concrete health-bar progress rectangle node for witnesses. -/
def barNodeW : Node :=
  { posX := 0, posY := 3/4, scaleX := 1, scaleY := 1/4, scaleZ := 1,
    kind := NodeKind.rectangle }

/-- Concrete two-node scene graph for witnesses: the player body at
handle 0 and the health-bar progress rectangle at handle 1. -/
def graphW : Graph :=
  fun h => if h = 0 then some playerNodeW else if h = 1 then some barNodeW else none

/-- Concrete player state for witnesses: only the A key held, health 25
of 100, progress bar at handle 1. -/
def playerW : Player :=
  { move_left := true, move_right := false, move_up := false, move_down := false,
    max_health := 100, health := 25,
    health_bar_background := 2, health_bar_progress := 1 }

/-- Witness for `player_velocity_cases`: the concrete state `playerW`
(only A held) on the concrete graph `graphW`; the velocity written is
`(+3, 0)`. -/
theorem player_velocity_cases_witness :
    ((∃ g' n', Player.on_update playerW 0 graphW = some g' ∧ g' 0 = some n' ∧
      n'.kind = NodeKind.rigidBody (FF.fin playerW.x_speed) (FF.fin playerW.y_speed)) ∧
    (playerW.x_speed = 0 ∨ playerW.x_speed = 3 ∨ playerW.x_speed = -3) ∧
    (playerW.y_speed = 0 ∨ playerW.y_speed = 3 ∨ playerW.y_speed = -3) ∧
    (playerW.move_left = playerW.move_right → playerW.x_speed = 0) ∧
    (playerW.move_left = true ∧ playerW.move_right = false → playerW.x_speed = 3) ∧
    (playerW.move_left = false ∧ playerW.move_right = true → playerW.x_speed = -3) ∧
    (playerW.move_up = playerW.move_down → playerW.y_speed = 0) ∧
    (playerW.move_up = true ∧ playerW.move_down = false → playerW.y_speed = 3) ∧
    (playerW.move_up = false ∧ playerW.move_down = true → playerW.y_speed = -3)) ∧
    playerW.x_speed = 3 ∧ playerW.y_speed = 0 :=
  ⟨player_velocity_cases playerW 0 graphW playerNodeW barNodeW (FF.fin 0) (FF.fin 0)
    (by decide) rfl rfl rfl rfl, rfl, rfl⟩

/-- Witness for `health_bar_scale`: the concrete state `playerW`
(health 25 of 100) on the concrete graph `graphW`; the resulting
progress x-scale expression instantiates to `(25/100 : ℚ) * 1`. -/
theorem health_bar_scale_witness :
    (∃ g' n', Player.on_update playerW 0 graphW = some g' ∧
      g' playerW.health_bar_progress = some n' ∧
      n'.scaleX = max (playerW.health / playerW.max_health) 0 * Player.MAX_HEALTH_BAR_WIDTH ∧
      n'.scaleY = barNodeW.scaleY ∧ n'.scaleZ = barNodeW.scaleZ) ∧
    max ((25 : ℚ) / 100) 0 * Player.MAX_HEALTH_BAR_WIDTH = 1/4 :=
  ⟨health_bar_scale playerW 0 graphW playerNodeW barNodeW (FF.fin 0) (FF.fin 0)
    (by decide) (by norm_num [playerW]) rfl rfl rfl rfl,
   by norm_num [Player.MAX_HEALTH_BAR_WIDTH]⟩

theorem FF.sub_fin (a b : ℚ) : (FF.fin a).sub (FF.fin b) = FF.fin (a - b) := by
  simp [FF.sub, FF.add, FF.neg, sub_eq_add_neg]

theorem FF.mul_fin (a b : ℚ) : (FF.fin a).mul (FF.fin b) = FF.fin (a * b) := rfl

theorem FF.add_fin (a b : ℚ) : (FF.fin a).add (FF.fin b) = FF.fin (a + b) := rfl

theorem FF.div_fin (a b : ℚ) (hb : b ≠ 0) :
    (FF.fin a).div (FF.fin b) = FF.fin (a / b) := by
  simp [FF.div, hb]

/-- C8: whenever `Enemy::move_towards_player` runs with distinct,
resolving self and player handles, both nodes rigid bodies, and the
float square root exact at the squared distance (value `s > 0`), the
written linear velocity is componentwise `Δ * (speed / s)` for
`Δ = player.pos - self.pos`, and its squared norm equals `speed²`. -/
theorem pursuit_velocity (e : Enemy) (g : Graph) (sn pn : Node) (sqrtF : FF → FF)
    (vx vy wx wy : FF) (s : ℚ)
    (hne : e.player_handle ≠ e.handle)
    (hs : g e.handle = some sn)
    (hp : g e.player_handle = some pn)
    (hsk : sn.kind = NodeKind.rigidBody vx vy)
    (hpk : pn.kind = NodeKind.rigidBody wx wy)
    (hsq : s * s = (pn.posX - sn.posX) * (pn.posX - sn.posX) +
      (pn.posY - sn.posY) * (pn.posY - sn.posY))
    (hspos : 0 < s)
    (hsqrt : sqrtF (FF.fin ((pn.posX - sn.posX) * (pn.posX - sn.posX) +
      (pn.posY - sn.posY) * (pn.posY - sn.posY))) = FF.fin s) :
    e.move_towards_player sqrtF g =
      Graph.update g e.handle
        (sn.set_lin_vel (FF.fin ((pn.posX - sn.posX) * (e.speed / s)))
          (FF.fin ((pn.posY - sn.posY) * (e.speed / s)))) ∧
    ((pn.posX - sn.posX) * (e.speed / s)) ^ 2 +
      ((pn.posY - sn.posY) * (e.speed / s)) ^ 2 = e.speed ^ 2 := by
  constructor
  · unfold Enemy.move_towards_player
    rw [hs]
    simp only [if_neg hne]
    rw [hp]
    simp only [hsk, hpk, FF.sub_fin, FF.mul_fin, FF.add_fin, hsqrt,
      FF.div_fin _ _ (ne_of_gt hspos)]
  · have hss : s ≠ 0 := ne_of_gt hspos
    calc ((pn.posX - sn.posX) * (e.speed / s)) ^ 2 +
        ((pn.posY - sn.posY) * (e.speed / s)) ^ 2
        = ((pn.posX - sn.posX) * (pn.posX - sn.posX) +
          (pn.posY - sn.posY) * (pn.posY - sn.posY)) * (e.speed / s) ^ 2 := by ring
      _ = (s * s) * (e.speed / s) ^ 2 := by rw [← hsq]
      _ = e.speed ^ 2 := by field_simp; ring

/-- C10: whenever `Enemy::move_towards_player` runs with distinct,
resolving handles, both nodes rigid bodies, and the player position
equal to the enemy position, there is no zero-distance guard: the code
divides the (finite) speed by the zero distance and multiplies the zero
direction components by the resulting infinity (or, for speed 0, by the
NaN from 0/0), so the velocity written to the enemy body is NaN in both
components — a non-finite value — for every speed.  The hypothesis on
`sqrtF` is the IEEE-exact case `sqrt(+0) = +0`. -/
theorem pursuit_nan_at_zero_distance (e : Enemy) (g : Graph) (sn pn : Node)
    (sqrtF : FF → FF) (vx vy wx wy : FF)
    (hne : e.player_handle ≠ e.handle)
    (hs : g e.handle = some sn)
    (hp : g e.player_handle = some pn)
    (hsk : sn.kind = NodeKind.rigidBody vx vy)
    (hpk : pn.kind = NodeKind.rigidBody wx wy)
    (hx : pn.posX = sn.posX)
    (hy : pn.posY = sn.posY)
    (hsqrt : sqrtF (FF.fin 0) = FF.fin 0) :
    e.move_towards_player sqrtF g =
      Graph.update g e.handle (sn.set_lin_vel FF.nan FF.nan) ∧
    FF.nan.isFinite = false := by
  refine ⟨?_, rfl⟩
  unfold Enemy.move_towards_player
  rw [hs]
  simp only [if_neg hne]
  rw [hp]
  simp only [hsk, hpk, FF.sub_fin, hx, hy, sub_self, FF.mul_fin, mul_zero,
    FF.add_fin, add_zero, hsqrt]
  rcases lt_trichotomy e.speed 0 with hlt | heq | hgt
  · simp [FF.div, FF.mul, hlt, not_lt.mpr (le_of_lt hlt), lt_irrefl]
  · simp [FF.div, FF.mul, heq, lt_irrefl]
  · simp [FF.div, FF.mul, hgt, not_lt.mpr (le_of_lt hgt), lt_irrefl]

/-- Concrete enemy rigid-body node for witnesses: at the origin. -/
def enemyNodeW : Node :=
  { posX := 0, posY := 0, scaleX := 1, scaleY := 1, scaleZ := 1,
    kind := NodeKind.rigidBody (FF.fin 0) (FF.fin 0) }

/-- Concrete player rigid-body node for the pursuit witness: at (3, 4). -/
def playerBodyW : Node :=
  { posX := 3, posY := 4, scaleX := 1, scaleY := 1, scaleZ := 1,
    kind := NodeKind.rigidBody (FF.fin 0) (FF.fin 0) }

/-- Concrete scene graph for the pursuit witness: the enemy body at
handle 0, the player body at handle 1. -/
def pursuitGraphW : Graph :=
  fun h => if h = 0 then some enemyNodeW else if h = 1 then some playerBodyW else none

/-- Concrete enemy script state for witnesses: self handle 0, player
handle 1, speed 2. -/
def enemyW : Enemy :=
  { Enemy.new with handle := 0, player_handle := 1, speed := 2 }

/-- Concrete float square root for the pursuit witness, exact at 25. -/
def sqrtW : FF → FF := fun x => if x = FF.fin 25 then FF.fin 5 else FF.nan

/-- Witness for `pursuit_velocity`: enemy at the origin with speed 2,
player at (3, 4); the written velocity is `(1.2, 1.6)` and its squared
norm is `4 = speed²`. -/
theorem pursuit_velocity_witness :
    (enemyW.move_towards_player sqrtW pursuitGraphW =
      Graph.update pursuitGraphW enemyW.handle
        (enemyNodeW.set_lin_vel
          (FF.fin ((playerBodyW.posX - enemyNodeW.posX) * (enemyW.speed / 5)))
          (FF.fin ((playerBodyW.posY - enemyNodeW.posY) * (enemyW.speed / 5)))) ∧
    ((playerBodyW.posX - enemyNodeW.posX) * (enemyW.speed / 5)) ^ 2 +
      ((playerBodyW.posY - enemyNodeW.posY) * (enemyW.speed / 5)) ^ 2 = enemyW.speed ^ 2) ∧
    (playerBodyW.posX - enemyNodeW.posX) * (enemyW.speed / 5) = 6/5 ∧
    (playerBodyW.posY - enemyNodeW.posY) * (enemyW.speed / 5) = 8/5 :=
  ⟨pursuit_velocity enemyW pursuitGraphW enemyNodeW playerBodyW sqrtW
    (FF.fin 0) (FF.fin 0) (FF.fin 0) (FF.fin 0) 5
    (by decide) rfl rfl rfl rfl
    (by norm_num [playerBodyW, enemyNodeW])
    (by norm_num)
    (by norm_num [sqrtW, playerBodyW, enemyNodeW]),
   by norm_num [playerBodyW, enemyNodeW, enemyW, Enemy.new],
   by norm_num [playerBodyW, enemyNodeW, enemyW, Enemy.new]⟩

/-- Concrete scene graph for the zero-distance witness: enemy and player
bodies at the same position. -/
def nanGraphW : Graph :=
  fun h => if h = 0 then some enemyNodeW else if h = 1 then some enemyNodeW else none

/-- Witness for `pursuit_nan_at_zero_distance`: enemy and player both at
the origin; the update writes a NaN velocity. -/
theorem pursuit_nan_at_zero_distance_witness :
    (enemyW.move_towards_player (fun _ => FF.fin 0) nanGraphW =
      Graph.update nanGraphW enemyW.handle (enemyNodeW.set_lin_vel FF.nan FF.nan)) ∧
    FF.nan.isFinite = false :=
  pursuit_nan_at_zero_distance enemyW nanGraphW enemyNodeW enemyNodeW
    (fun _ => FF.fin 0) (FF.fin 0) (FF.fin 0) (FF.fin 0) (FF.fin 0)
    (by decide) rfl rfl rfl rfl rfl rfl rfl

/-- C9: whenever `EnemySpawner::spawn_enemy` runs with a resolving
player handle and both sampling ranges non-degenerate, and the sampler
obeys the `gen_range` contract (a result in `[lo, hi)`), the spawned
enemy's starting position lies in the clamped rectangle
`[max(p.x - r, MIN), min(p.x + r, MAX)] x [max(p.y - r, MIN), min(p.y + r, MAX)]`,
hence inside the arena square `[MIN, MAX]²` and within L∞-distance `r`
of the player position.  `minB`/`maxB` stand for the offset-adjusted
arena bound constants (see `EnemySpawner.spawn_enemy`). -/
theorem spawn_position_in_region (s : EnemySpawner) (minB maxB : ℚ)
    (sample : ℚ → ℚ → ℚ) (g : Graph) (pn : Node)
    (hp : g s.player_handle = some pn)
    (hsample : ∀ lo hi, lo < hi → lo ≤ sample lo hi ∧ sample lo hi < hi)
    (hx : max (pn.posX - s.spawn_radius) minB < min (pn.posX + s.spawn_radius) maxB)
    (hy : max (pn.posY - s.spawn_radius) minB < min (pn.posY + s.spawn_radius) maxB) :
    ∃ e : Enemy, s.spawn_enemy minB maxB sample g = some e ∧
      minB ≤ e.starting_position_x ∧ e.starting_position_x ≤ maxB ∧
      minB ≤ e.starting_position_y ∧ e.starting_position_y ≤ maxB ∧
      |e.starting_position_x - pn.posX| ≤ s.spawn_radius ∧
      |e.starting_position_y - pn.posY| ≤ s.spawn_radius ∧
      max (pn.posX - s.spawn_radius) minB ≤ e.starting_position_x ∧
      e.starting_position_x ≤ min (pn.posX + s.spawn_radius) maxB ∧
      max (pn.posY - s.spawn_radius) minB ≤ e.starting_position_y ∧
      e.starting_position_y ≤ min (pn.posY + s.spawn_radius) maxB := by
  obtain ⟨hx1, hx2⟩ := hsample _ _ hx
  obtain ⟨hy1, hy2⟩ := hsample _ _ hy
  have hpx1 : pn.posX - s.spawn_radius ≤ max (pn.posX - s.spawn_radius) minB :=
    le_max_left _ _
  have hpx2 : min (pn.posX + s.spawn_radius) maxB ≤ pn.posX + s.spawn_radius :=
    min_le_left _ _
  have hpy1 : pn.posY - s.spawn_radius ≤ max (pn.posY - s.spawn_radius) minB :=
    le_max_left _ _
  have hpy2 : min (pn.posY + s.spawn_radius) maxB ≤ pn.posY + s.spawn_radius :=
    min_le_left _ _
  have hbx1 : minB ≤ max (pn.posX - s.spawn_radius) minB := le_max_right _ _
  have hbx2 : min (pn.posX + s.spawn_radius) maxB ≤ maxB := min_le_right _ _
  have hby1 : minB ≤ max (pn.posY - s.spawn_radius) minB := le_max_right _ _
  have hby2 : min (pn.posY + s.spawn_radius) maxB ≤ maxB := min_le_right _ _
  unfold EnemySpawner.spawn_enemy
  rw [hp]
  simp only [if_pos (And.intro hx hy)]
  refine ⟨_, rfl, ?_, ?_, ?_, ?_, ?_, ?_, ?_, ?_, ?_, ?_⟩ <;>
    simp only [Enemy.with_attack_speed, Enemy.with_attack_damage, Enemy.with_scale,
      Enemy.with_starting_position, Enemy.with_speed, Enemy.with_name]
  · linarith
  · linarith
  · linarith
  · linarith
  · rw [abs_le]; constructor <;> linarith
  · rw [abs_le]; constructor <;> linarith
  · linarith
  · linarith
  · linarith
  · linarith

/-- Concrete spawner for the region witness: radius 5, player handle 0. -/
def regionSpawnerW : EnemySpawner :=
  { spawn_rate := 0, spawn_timer := 0, spawn_radius := 5,
    enemy := types.Enemy.new, player_handle := 0 }

/-- Concrete one-node graph for the region witness: only the player
body, at the origin. -/
def regionGraphW : Graph := fun h => if h = 0 then some playerNodeW else none

/-- Witness for `spawn_position_in_region`: player at the origin,
radius 5, bounds `[-9, 9]`, and the sampler that returns the lower end
of the requested range. -/
theorem spawn_position_in_region_witness :
    ∃ e : Enemy, regionSpawnerW.spawn_enemy (-9) 9 (fun lo _ => lo) regionGraphW = some e ∧
      -9 ≤ e.starting_position_x ∧ e.starting_position_x ≤ 9 ∧
      -9 ≤ e.starting_position_y ∧ e.starting_position_y ≤ 9 ∧
      |e.starting_position_x - playerNodeW.posX| ≤ regionSpawnerW.spawn_radius ∧
      |e.starting_position_y - playerNodeW.posY| ≤ regionSpawnerW.spawn_radius ∧
      max (playerNodeW.posX - regionSpawnerW.spawn_radius) (-9) ≤ e.starting_position_x ∧
      e.starting_position_x ≤ min (playerNodeW.posX + regionSpawnerW.spawn_radius) 9 ∧
      max (playerNodeW.posY - regionSpawnerW.spawn_radius) (-9) ≤ e.starting_position_y ∧
      e.starting_position_y ≤ min (playerNodeW.posY + regionSpawnerW.spawn_radius) 9 :=
  spawn_position_in_region regionSpawnerW (-9) 9 (fun lo _ => lo) regionGraphW playerNodeW
    rfl (fun lo hi h => ⟨le_refl lo, h⟩)
    (by norm_num [playerNodeW, regionSpawnerW])
    (by norm_num [playerNodeW, regionSpawnerW])

/-- Concrete collider node for the error-handling counterexample. -/
def colliderNodeW : Node :=
  { posX := 0, posY := 0, scaleX := 1, scaleY := 1, scaleZ := 1,
    kind := NodeKind.collider }

/-- Concrete player state whose health-bar progress handle points at a
node that is not a rectangle. -/
def badBarPlayerW : Player :=
  { move_left := false, move_right := false, move_up := false, move_down := false,
    max_health := 100, health := 100,
    health_bar_background := 1, health_bar_progress := 1 }

/-- Concrete graph for the error-handling counterexample: the player
body at handle 0 and a collider (not a rectangle) at handle 1. -/
def badBarGraphW : Graph :=
  fun h => if h = 0 then some playerNodeW else if h = 1 then some colliderNodeW else none

/-- Concrete spawner for the error-handling counterexample: spawn radius
0, so both sampling ranges collapse to a single point. -/
def degenSpawnerW : EnemySpawner :=
  { spawn_rate := 0, spawn_timer := 0, spawn_radius := 0,
    enemy := types.Enemy.new, player_handle := 0 }

/-- C2 counterexample: the claim asserts that every core error kind is
handled by silently returning from the current script update; on the
code, `Player::on_update` with a non-rectangle `health_bar_progress`
handle panics (`as_rectangle_mut`; result `none`), and
`EnemySpawner::spawn_enemy` with a degenerate sampling rectangle
(radius 0, so `min = max` on both axes) panics (`gen_range` on an empty
range; result `none`) instead of returning silently. -/
theorem silent_error_counterexample :
    Player.on_update badBarPlayerW 0 badBarGraphW = none ∧
    EnemySpawner.spawn_enemy degenSpawnerW 0 10 (fun lo hi => lo + hi) regionGraphW = none := by
  constructor
  · rfl
  · norm_num [EnemySpawner.spawn_enemy, degenSpawnerW, regionGraphW, playerNodeW]

/-- C2 as amended: missing handles, wrong node types, and multi-borrow
contention do make the affected update a silent per-tick no-op in
`Enemy::move_towards_player` (all five failure points) and in the
velocity stage of `Player::on_update` (a non-rigid-body self node skips
the velocity write and the update completes leaving the node intact);
but the two error paths singled out by the claim panic instead of
returning silently: `Player::on_update` panics when the
`health_bar_progress` handle is dangling or resolves to a non-rectangle
node, and `EnemySpawner::spawn_enemy` panics when the player handle is
dangling or a sampling range is degenerate (`min ≥ max` on some axis). -/
theorem silent_error_semantics :
    (∀ (e : Enemy) (f : FF → FF) (g : Graph),
      g e.handle = none → e.move_towards_player f g = g) ∧
    (∀ (e : Enemy) (f : FF → FF) (g : Graph),
      e.player_handle = e.handle → e.move_towards_player f g = g) ∧
    (∀ (e : Enemy) (f : FF → FF) (g : Graph) (sn : Node),
      g e.handle = some sn → e.player_handle ≠ e.handle →
      g e.player_handle = none → e.move_towards_player f g = g) ∧
    (∀ (e : Enemy) (f : FF → FF) (g : Graph) (sn pn : Node),
      g e.handle = some sn → e.player_handle ≠ e.handle →
      g e.player_handle = some pn →
      (∀ a b, sn.kind ≠ NodeKind.rigidBody a b) →
      e.move_towards_player f g = g) ∧
    (∀ (e : Enemy) (f : FF → FF) (g : Graph) (sn pn : Node) (vx vy : FF),
      g e.handle = some sn → e.player_handle ≠ e.handle →
      g e.player_handle = some pn → sn.kind = NodeKind.rigidBody vx vy →
      (∀ a b, pn.kind ≠ NodeKind.rigidBody a b) →
      e.move_towards_player f g = g) ∧
    (∀ (p : Player) (h : Nat) (g : Graph) (sn bn : Node),
      h ≠ p.health_bar_progress → g h = some sn →
      (∀ a b, sn.kind ≠ NodeKind.rigidBody a b) →
      g p.health_bar_progress = some bn → bn.kind = NodeKind.rectangle →
      ∃ g', Player.on_update p h g = some g' ∧ g' h = some sn) ∧
    (∀ (p : Player) (h : Nat) (g : Graph) (sn : Node),
      h ≠ p.health_bar_progress → g h = some sn →
      g p.health_bar_progress = none → Player.on_update p h g = none) ∧
    (∀ (p : Player) (h : Nat) (g : Graph) (sn bn : Node),
      h ≠ p.health_bar_progress → g h = some sn →
      g p.health_bar_progress = some bn → bn.kind ≠ NodeKind.rectangle →
      Player.on_update p h g = none) ∧
    (∀ (s : EnemySpawner) (minB maxB : ℚ) (sample : ℚ → ℚ → ℚ) (g : Graph),
      g s.player_handle = none → s.spawn_enemy minB maxB sample g = none) ∧
    (∀ (s : EnemySpawner) (minB maxB : ℚ) (sample : ℚ → ℚ → ℚ) (g : Graph) (pn : Node),
      g s.player_handle = some pn →
      ¬(max (pn.posX - s.spawn_radius) minB < min (pn.posX + s.spawn_radius) maxB ∧
        max (pn.posY - s.spawn_radius) minB < min (pn.posY + s.spawn_radius) maxB) →
      s.spawn_enemy minB maxB sample g = none) := by
  refine ⟨?_, ?_, ?_, ?_, ?_, ?_, ?_, ?_, ?_, ?_⟩
  · intro e f g h
    unfold Enemy.move_towards_player
    rw [h]
  · intro e f g h
    unfold Enemy.move_towards_player
    cases hsn : g e.handle <;> simp [h]
  · intro e f g sn hs hne hp
    unfold Enemy.move_towards_player
    rw [hs]
    simp only [if_neg hne]
    rw [hp]
  · intro e f g sn pn hs hne hp hk
    unfold Enemy.move_towards_player
    rw [hs]
    simp only [if_neg hne]
    rw [hp]
  · intro e f g sn pn vx vy hs hne hp hsk hk
    unfold Enemy.move_towards_player
    rw [hs]
    simp only [if_neg hne]
    rw [hp]
    simp only [hsk]
  · intro p h g sn bn hne hs hk hb hbk
    unfold Player.on_update
    rw [hs]
    cases hsk : sn.kind
    case rigidBody a b => exact absurd hsk (hk a b)
    all_goals
      simp only [hsk]
      rw [hb]
      simp only [hbk]
      split
      · exact ⟨_, rfl, (Graph.update_other _ _ _ _ hne).trans hs⟩
      · exact ⟨_, rfl, hs⟩
  · intro p h g sn hne hs hb
    unfold Player.on_update
    rw [hs]
    cases hsk : sn.kind <;> simp only [hsk]
    case rigidBody a b =>
      rw [Graph.update_other _ _ _ _ (Ne.symm hne), hb]
    all_goals rw [hb]
  · intro p h g sn bn hne hs hb hbk
    unfold Player.on_update
    rw [hs]
    cases hsk : sn.kind <;> simp only [hsk]
    case rigidBody a b =>
      rw [Graph.update_other _ _ _ _ (Ne.symm hne), hb]
      cases hbk2 : bn.kind
      case rectangle => exact absurd hbk2 hbk
      all_goals simp only [hbk2]
    all_goals
      rw [hb]
      cases hbk2 : bn.kind
      case rectangle => exact absurd hbk2 hbk
      all_goals simp only [hbk2]
  · intro s minB maxB sample g h
    unfold EnemySpawner.spawn_enemy
    rw [h]
  · intro s minB maxB sample g pn hp hcond
    unfold EnemySpawner.spawn_enemy
    rw [hp]
    simp only [if_neg hcond]

/-- Witness for `silent_error_semantics`: `Enemy::new` has its own
handle equal to its cached player handle (both `Handle::NONE`), so the
multi-borrow refuses the second borrow and the pursuit update leaves the
graph untouched. -/
theorem silent_error_semantics_witness :
    Enemy.new.move_towards_player (fun _ => FF.nan) regionGraphW = regionGraphW :=
  silent_error_semantics.2.1 Enemy.new (fun _ => FF.nan) regionGraphW rfl

theorem tileAt_x (rng : Int → Int → Nat × Nat) (offset maxXY x y : Int) :
    (tileAt rng offset maxXY x y).x = x := by
  unfold tileAt; split <;> rfl

theorem tileAt_y (rng : Int → Int → Nat × Nat) (offset maxXY x y : Int) :
    (tileAt rng offset maxXY x y).y = y := by
  unfold tileAt; split <;> rfl

theorem tileAt_cell (rng : Int → Int → Nat × Nat) (offset maxXY x y : Int) :
    (tileAt rng offset maxXY x y).cell = (x, y) := by
  unfold Tile.cell tileAt; split <;> rfl

theorem tileAt_static (rng : Int → Int → Nat × Nat) (offset maxXY x y : Int) :
    (tileAt rng offset maxXY x y).is_rigid_body_static =
      decide (|x| = maxXY + 1 ∨ |y| = maxXY + 1) := by
  unfold tileAt
  split
  · rename_i h; simp [h]
  · rename_i h; simp [h]

theorem tileAt_collider (rng : Int → Int → Nat × Nat) (offset maxXY x y : Int) :
    (tileAt rng offset maxXY x y).has_collider_child =
      decide (|x| = maxXY + 1 ∨ |y| = maxXY + 1) := by
  unfold tileAt
  split
  · rename_i h; simp [h]
  · rename_i h; simp [h]

theorem length_flatMap_const {α β : Type} (l : List α) (f : α → List β) (n : Nat)
    (h : ∀ a, (f a).length = n) : (l.flatMap f).length = l.length * n := by
  induction l with
  | nil => simp
  | cons a t ih => simp [List.flatMap_cons, h, ih, Nat.succ_mul, Nat.add_comm]

theorem countP_flatMap {α β : Type} (l : List α) (f : α → List β) (p : β → Bool) :
    (l.flatMap f).countP p = (l.map (fun a => (f a).countP p)).sum := by
  induction l with
  | nil => rfl
  | cons a t ih => simp [List.flatMap_cons, List.countP_append, ih]

theorem tileCoords_nodup : (tileCoords MIN_MAP_XY MAX_MAP_XY).Nodup := by
  unfold tileCoords
  refine List.Nodup.map ?_ (List.nodup_range _)
  intro a b hab
  simp only [MIN_MAP_XY] at hab
  omega

theorem tileCoords_mem (z : Int) :
    z ∈ tileCoords MIN_MAP_XY MAX_MAP_XY ↔
      (MIN_MAP_XY - 1 ≤ z ∧ z ≤ MAX_MAP_XY + 1) := by
  unfold tileCoords
  simp only [List.mem_map, List.mem_range, MIN_MAP_XY, MAX_MAP_XY]
  constructor
  · rintro ⟨i, hi, rfl⟩
    constructor <;> omega
  · rintro ⟨h1, h2⟩
    refine ⟨(z + 11).toNat, ?_, ?_⟩ <;> omega

theorem build_tilemap_map_cell (rng : Int → Int → Nat × Nat) (offset : Int) :
    (build_tilemap rng offset MIN_MAP_XY MAX_MAP_XY).map Tile.cell =
      (tileCoords MIN_MAP_XY MAX_MAP_XY).product (tileCoords MIN_MAP_XY MAX_MAP_XY) := by
  unfold build_tilemap List.product
  rw [List.map_flatMap]
  congr 1
  funext x
  rw [List.map_map]
  congr 1
  funext y
  simp [tileAt_cell, Function.comp]

/-- C4: for every random draw function and every `MAP_OFFSET`, the
tile-map build over `MIN_MAP_XY = -10`, `MAX_MAP_XY = 10` produces
exactly `529 = (MAX - MIN + 3)²` tiles, one per cell `(x, y)` with
`MIN - 1 ≤ x, y ≤ MAX + 1` and no two at the same cell; exactly the
cells with `|x| = MAX + 1` or `|y| = MAX + 1` are built as static rigid
bodies with a collider child (the others as plain quads), and these
boundary tiles number 88. -/
theorem tilemap_structure (rng : Int → Int → Nat × Nat) (offset : Int) :
    (build_tilemap rng offset MIN_MAP_XY MAX_MAP_XY).length = 529 ∧
    (529 : Int) = (MAX_MAP_XY - MIN_MAP_XY + 3) ^ 2 ∧
    ((build_tilemap rng offset MIN_MAP_XY MAX_MAP_XY).map Tile.cell).Nodup ∧
    (∀ x y : Int,
      (x, y) ∈ (build_tilemap rng offset MIN_MAP_XY MAX_MAP_XY).map Tile.cell ↔
      (MIN_MAP_XY - 1 ≤ x ∧ x ≤ MAX_MAP_XY + 1 ∧
        MIN_MAP_XY - 1 ≤ y ∧ y ≤ MAX_MAP_XY + 1)) ∧
    (∀ t ∈ build_tilemap rng offset MIN_MAP_XY MAX_MAP_XY,
      (t.is_rigid_body_static = true ↔ (|t.x| = MAX_MAP_XY + 1 ∨ |t.y| = MAX_MAP_XY + 1)) ∧
      (t.has_collider_child = true ↔ (|t.x| = MAX_MAP_XY + 1 ∨ |t.y| = MAX_MAP_XY + 1))) ∧
    (build_tilemap rng offset MIN_MAP_XY MAX_MAP_XY).countP Tile.is_rigid_body_static = 88 := by
  have hclen : (tileCoords MIN_MAP_XY MAX_MAP_XY).length = 23 := by
    unfold tileCoords
    rw [List.length_map, List.length_range]
    simp only [MIN_MAP_XY, MAX_MAP_XY]
    decide
  have hinner : ∀ x : Int,
      ((tileCoords MIN_MAP_XY MAX_MAP_XY).map
        (fun y => tileAt rng offset MAX_MAP_XY x y)).length = 23 := by
    intro x
    rw [List.length_map]
    exact hclen
  refine ⟨?_, ?_, ?_, ?_, ?_, ?_⟩
  · unfold build_tilemap
    rw [length_flatMap_const _ _ 23 hinner, hclen]
  · norm_num [MIN_MAP_XY, MAX_MAP_XY]
  · rw [build_tilemap_map_cell]
    exact tileCoords_nodup.product tileCoords_nodup
  · intro x y
    rw [build_tilemap_map_cell]
    rw [List.pair_mem_product]
    rw [tileCoords_mem, tileCoords_mem]
    tauto
  · intro t ht
    unfold build_tilemap at ht
    rw [List.mem_flatMap] at ht
    obtain ⟨x, hx, ht⟩ := ht
    rw [List.mem_map] at ht
    obtain ⟨y, hy, rfl⟩ := ht
    rw [tileAt_static, tileAt_collider, tileAt_x, tileAt_y]
    constructor <;> simp
  · unfold build_tilemap
    rw [countP_flatMap]
    have hcnt : ∀ x : Int,
        ((tileCoords MIN_MAP_XY MAX_MAP_XY).map
          (fun y => tileAt rng offset MAX_MAP_XY x y)).countP Tile.is_rigid_body_static =
        (tileCoords MIN_MAP_XY MAX_MAP_XY).countP
          (fun y => decide (|x| = MAX_MAP_XY + 1 ∨ |y| = MAX_MAP_XY + 1)) := by
      intro x
      rw [List.countP_map]
      apply List.countP_congr
      intro y _
      simp [Function.comp, tileAt_static]
    simp only [hcnt]
    decide

/-- Witness for `tilemap_structure`: the constant draw function and
offset 11; the build yields 529 tiles of which 88 are boundary. -/
theorem tilemap_structure_witness :
    (build_tilemap (fun _ _ => (0, 0)) 11 MIN_MAP_XY MAX_MAP_XY).length = 529 ∧
    (build_tilemap (fun _ _ => (0, 0)) 11 MIN_MAP_XY MAX_MAP_XY).countP
      Tile.is_rigid_body_static = 88 ∧
    ((11, 0) ∈ (build_tilemap (fun _ _ => (0, 0)) 11 MIN_MAP_XY MAX_MAP_XY).map Tile.cell) :=
  ⟨(tilemap_structure (fun _ _ => (0, 0)) 11).1,
   (tilemap_structure (fun _ _ => (0, 0)) 11).2.2.2.2.2,
   ((tilemap_structure (fun _ _ => (0, 0)) 11).2.2.2.1 11 0).mpr (by norm_num [MIN_MAP_XY, MAX_MAP_XY])⟩

/-- C5 (evaluation at the failing input): the grass-tile UV draws are
`gen_range(0..=8)` and `gen_range(0..=4)`, so the pair `(8, 4)` is an
admissible draw (first two conjuncts); with that draw the interior cell
`(0, 0)` of the built map is a grass quad whose UV origin is
`(1, 1/2)` — outside the 8x4 top-half grid asserted by the claim, whose
largest admissible origin is `(7/8, 3/8)` (last two conjuncts). -/
theorem grass_uv_code_bug :
    (8 ≤ 8 ∧ 4 ≤ 4) ∧
    tileAt (fun _ _ => (8, 4)) 11 MAX_MAP_XY 0 0 ∈
      build_tilemap (fun _ _ => (8, 4)) 11 MIN_MAP_XY MAX_MAP_XY ∧
    (tileAt (fun _ _ => (8, 4)) 11 MAX_MAP_XY 0 0).is_rigid_body_static = false ∧
    (tileAt (fun _ _ => (8, 4)) 11 MAX_MAP_XY 0 0).uv_x = 1 ∧
    (tileAt (fun _ _ => (8, 4)) 11 MAX_MAP_XY 0 0).uv_y = 1/2 ∧
    (7 : ℚ)/8 < 1 ∧ (3 : ℚ)/8 < 1/2 := by
  refine ⟨⟨le_refl 8, le_refl 4⟩, ?_, ?_, ?_, ?_, by norm_num, by norm_num⟩
  · unfold build_tilemap
    rw [List.mem_flatMap]
    refine ⟨0, (tileCoords_mem 0).mpr (by norm_num [MIN_MAP_XY, MAX_MAP_XY]), ?_⟩
    rw [List.mem_map]
    exact ⟨0, (tileCoords_mem 0).mpr (by norm_num [MIN_MAP_XY, MAX_MAP_XY]), rfl⟩
  · norm_num [tileAt, MAX_MAP_XY]
  · norm_num [tileAt, MAX_MAP_XY]
  · norm_num [tileAt, MAX_MAP_XY]
